/-
Verification of the metrics / type-coercion core of the analytical-report
generator (src/analysis.py and src/data_types.py).

The embedding models a pandas DataFrame as a list of column names plus a
list of rows, each row a list of cells.  A cell is a missing value (NaN/NaT),
a rational number (numeric values), a string, or a parsed date (an integer
count of days; pandas timestamps in this code are compared and subtracted
only at day granularity via `.days`).

Library coercion routines `pd.to_datetime(·, errors='coerce')` and
`pd.to_numeric(·, errors='coerce')` are modelled as parameters
(`toDT : Cell → Option Int`, `toN : Cell → Option ℚ`): the theorems hold for
every coercion function, which is exactly the content of the claims about
`enforce_types` (rows whose date cell fails to coerce are dropped, amount
cells that fail to coerce become 0, everything else is untouched).

Python truthiness of the optional column-name arguments
(`if amount_col and amount_col in df.columns`) is modelled exactly:
a column designator passes the guard iff it is `some s` with `s` a
non-empty string that occurs among the columns (`colOk`).
-/
import Mathlib

namespace Report

/-- A single table cell: missing (NaN/NaT), numeric, string, or a parsed
date measured in whole days. -/
inductive Cell where
  | na : Cell
  | num : ℚ → Cell
  | str : String → Cell
  | date : Int → Cell
deriving DecidableEq, Repr

/-- A pandas DataFrame: column names and rows of cells. -/
structure DataFrame where
  cols : List String
  rows : List (List Cell)
deriving DecidableEq, Repr

/-- Index of a column name in the header (meaningful when the name occurs). -/
def colIndex (df : DataFrame) (c : String) : Nat := df.cols.indexOf c

/-- Cell of a row at a column position (missing when the row is too short). -/
def cellAt (row : List Cell) (i : Nat) : Cell := row.getD i Cell.na

/-- The cells of one column, top to bottom. -/
def colCells (df : DataFrame) (c : String) : List Cell :=
  df.rows.map (fun r => cellAt r (colIndex df c))

/-- Numeric value of a cell, if any. -/
def cellNum : Cell → Option ℚ
  | Cell.num q => some q
  | _ => none

/-- `Series.sum()` on a numeric column: NaN entries are skipped, the empty
sum is 0. -/
def colSum (df : DataFrame) (c : String) : ℚ :=
  (((colCells df c).filterMap cellNum).foldr (· + ·) 0)

/-- Number of non-missing numeric entries of a column. -/
def numCount (df : DataFrame) (c : String) : Nat :=
  ((colCells df c).filterMap cellNum).length

/-- A Python float that may be NaN. -/
inductive PFloat where
  | nan : PFloat
  | val : ℚ → PFloat
deriving DecidableEq, Repr

/-- `Series.mean()`: NaN entries are skipped; the mean of no entries is NaN. -/
def colMean (df : DataFrame) (c : String) : PFloat :=
  if numCount df c = 0 then PFloat.nan
  else PFloat.val (colSum df c / (numCount df c : ℚ))

/-- The Python guard `col and col in df.columns` on an optional column name:
`None` and the empty string are falsy. -/
def colOk (df : DataFrame) : Option String → Bool
  | none => false
  | some s => (!(s == "")) && df.cols.contains s

/- ## Top items (`_get_top_items`) -/

/-- Candidate grouping columns, in the fixed order the source checks them. -/
def itemColNames : List String := ["item", "product", "name", "category"]

/-- First candidate name present among the columns (`item_col`). -/
def findItemCol (df : DataFrame) : Option String :=
  itemColNames.find? (fun c => df.cols.contains c)

/-- The empty result frame `pd.DataFrame(columns=['item', 'amount'])`. -/
def emptyTop : DataFrame := ⟨["item", "amount"], []⟩

/-- (group key, amount) pairs fed to `groupby`: rows whose key cell is
missing are dropped (pandas groupby drops NaN keys); a missing amount
contributes 0 to the group sum (skipna summation). -/
def topPairs (df : DataFrame) (ic a : String) : List (Cell × ℚ) :=
  df.rows.filterMap (fun r =>
    let k := cellAt r (colIndex df ic)
    if k = Cell.na then none
    else some (k, (cellNum (cellAt r (colIndex df a))).getD 0))

/-- Distinct group keys. -/
def grpKeys (ps : List (Cell × ℚ)) : List Cell := (ps.map Prod.fst).dedup

/-- Sum of the amounts in one group. -/
def grpSum (ps : List (Cell × ℚ)) (k : Cell) : ℚ :=
  (((ps.filter (fun p => p.1 = k)).map Prod.snd).foldr (· + ·) 0)

/-- `df.groupby(item_col)[amount_col].sum()`: one (key, sum) pair per
distinct key. -/
def groupSums (ps : List (Cell × ℚ)) : List (Cell × ℚ) :=
  (grpKeys ps).map (fun k => (k, grpSum ps k))

/-- "Descending by amount" order used by `sort_values(ascending=False)`. -/
def geSnd (p q : Cell × ℚ) : Prop := q.2 ≤ p.2

instance : DecidableRel geSnd := fun p q => inferInstanceAs (Decidable (q.2 ≤ p.2))

instance : IsTotal (Cell × ℚ) geSnd := ⟨fun p q => le_total q.2 p.2⟩

instance : IsTrans (Cell × ℚ) geSnd := ⟨fun _ _ _ h h' => le_trans h' h⟩

/-- `_get_top_items`: group on the detected item column, sum the amount
column, sort descending by the sum and keep the first `topn` groups; an
empty ['item','amount'] frame when no grouping column or no valid amount
column exists. -/
def getTopItems (df : DataFrame) (ac : Option String) (topn : Nat) : DataFrame :=
  match findItemCol df with
  | none => emptyTop
  | some ic =>
    if colOk df ac then
      match ac with
      | some a =>
        ⟨["item", "amount"],
          (((groupSums (topPairs df ic a)).insertionSort geSnd).take topn).map
            (fun p => [p.1, Cell.num p.2])⟩
      | none => emptyTop
    else emptyTop

/- ## Time series (`_get_time_series`) -/

/-- (date, amount) pairs fed to the time-series groupby: rows whose date
cell is not a parsed date (NaT after `enforce_types`) are dropped, as
pandas groupby drops missing keys. -/
def tsPairs (df : DataFrame) (d a : String) : List (Int × ℚ) :=
  df.rows.filterMap (fun r =>
    match cellAt r (colIndex df d) with
    | Cell.date t => some (t, (cellNum (cellAt r (colIndex df a))).getD 0)
    | _ => none)

/-- Distinct date keys, ascending (groupby sorts its keys). -/
def tsKeys (ps : List (Int × ℚ)) : List Int :=
  ((ps.map Prod.fst).dedup).insertionSort (fun x y => x ≤ y)

/-- Sum of the amounts on one date. -/
def tsSum (ps : List (Int × ℚ)) (k : Int) : ℚ :=
  (((ps.filter (fun p => p.1 = k)).map Prod.snd).foldr (· + ·) 0)

/-- `df.groupby(date_col)[amount_col].sum().reset_index()`: one
(date, sum) pair per distinct date, dates ascending. -/
def tsGroups (ps : List (Int × ℚ)) : List (Int × ℚ) :=
  (tsKeys ps).map (fun k => (k, tsSum ps k))

/-- Maximum of a list of integers (only used on non-empty lists). -/
def listMaxI : List Int → Int
  | [] => 0
  | x :: xs => xs.foldl max x

/-- Minimum of a list of integers (only used on non-empty lists). -/
def listMinI : List Int → Int
  | [] => 0
  | x :: xs => xs.foldl min x

/-- `(ts_df['date'].max() - ts_df['date'].min()).days`. -/
def dateRangeOf (g : List (Int × ℚ)) : Int :=
  listMaxI (g.map Prod.fst) - listMinI (g.map Prod.fst)

/-- Resampling frequency: month starts, weeks anchored on Monday, or days. -/
inductive Freq where
  | MS : Freq
  | WMon : Freq
  | D : Freq
deriving DecidableEq, Repr

/-- The frequency selection of `_get_time_series`: 'MS' when the span
exceeds 180 days, 'W-MON' when it exceeds 60 days, 'D' otherwise. -/
def chooseFreq (r : Int) : Freq :=
  if r > 180 then Freq.MS else if r > 60 then Freq.WMon else Freq.D

/-- Lines 97-102 of `_get_time_series`: the guard and the groupby-sum.
The produced frame is the grouped series before resampling (the resample
step then redistributes these sums onto a uniform calendar grid at the
frequency recorded by `getTimeSeriesFreq`; no claim concerns the
calendar arithmetic of the grid itself). -/
def getTimeSeriesGrouped (df : DataFrame) (dc ac : Option String) : DataFrame :=
  match dc, ac with
  | some d, some a =>
    if colOk df (some d) && colOk df (some a) then
      ⟨["date", "amount"],
        (tsGroups (tsPairs df d a)).map (fun p => [Cell.date p.1, Cell.num p.2])⟩
    else ⟨["date", "amount"], []⟩
  | _, _ => ⟨["date", "amount"], []⟩

/-- Lines 104-113 of `_get_time_series`: the automatically selected
resampling frequency; `none` when no resample happens (guard branch or
empty grouped series). -/
def getTimeSeriesFreq (df : DataFrame) (dc ac : Option String) : Option Freq :=
  match dc, ac with
  | some d, some a =>
    if colOk df (some d) && colOk df (some a) then
      let g := tsGroups (tsPairs df d a)
      if g.isEmpty then none else some (chooseFreq (dateRangeOf g))
    else none
  | _, _ => none

/- ## `compute_metrics` -/

/-- The metrics dictionary returned by `compute_metrics`.  The
'time_series' entry is recorded as its grouped (pre-resample) series
together with the chosen resampling frequency. -/
structure Metrics where
  total_sales : PFloat
  avg_ticket : PFloat
  total_orders : Nat
  top_items : DataFrame
  time_series : DataFrame
  ts_freq : Option Freq
deriving Repr

/-- `compute_metrics(df, date_col, amount_col, topn)`. -/
def compute_metrics (df : DataFrame) (dc ac : Option String) (topn : Nat) : Metrics :=
  let sales : PFloat × PFloat :=
    match ac with
    | some a =>
      if colOk df (some a) then (PFloat.val (colSum df a), colMean df a)
      else (PFloat.val 0, PFloat.val 0)
    | none => (PFloat.val 0, PFloat.val 0)
  { total_sales := sales.1
    avg_ticket := sales.2
    total_orders := df.rows.length
    top_items := getTopItems df ac topn
    time_series := getTimeSeriesGrouped df dc ac
    ts_freq := getTimeSeriesFreq df dc ac }

/- ## Type coercion (`enforce_types`) -/

/-- One cell under `pd.to_datetime(·, errors='coerce')`: a parsed date, or
NaT on failure.  The parser itself is the parameter `toDT`. -/
def toDatetimeCell (toDT : Cell → Option Int) (c : Cell) : Cell :=
  match toDT c with
  | some t => Cell.date t
  | none => Cell.na

/-- One cell under `pd.to_numeric(·, errors='coerce')`: a number, or NaN on
failure.  The parser itself is the parameter `toN`. -/
def toNumericCell (toN : Cell → Option ℚ) (c : Cell) : Cell :=
  match toN c with
  | some q => Cell.num q
  | none => Cell.na

/-- One cell under `fillna(0)`. -/
def fillnaCell (c : Cell) : Cell :=
  match c with
  | Cell.na => Cell.num 0
  | c => c

/-- Whole-column assignment `df[c] = f(df[c])`. -/
def setColumn (df : DataFrame) (c : String) (f : Cell → Cell) : DataFrame :=
  ⟨df.cols, df.rows.map (fun r =>
    r.set (colIndex df c) (f (cellAt r (colIndex df c))))⟩

/-- `df.dropna(subset=[c])`: keep the rows whose cell in column `c` is not
missing. -/
def dropnaSubset (df : DataFrame) (c : String) : DataFrame :=
  ⟨df.cols, df.rows.filter (fun r => !(cellAt r (colIndex df c) == Cell.na))⟩

/-- `enforce_types(df, date_col, amount_col)`: parse the date column and
drop rows without a parsable date, then coerce the amount column to
numeric and fill failures with 0. -/
def enforce_types (toDT : Cell → Option Int) (toN : Cell → Option ℚ)
    (df : DataFrame) (dc ac : Option String) : DataFrame :=
  let df1 :=
    match dc with
    | some d =>
      if colOk df (some d) then dropnaSubset (setColumn df d (toDatetimeCell toDT)) d
      else df
    | none => df
  match ac with
  | some a =>
    if colOk df1 (some a) then
      setColumn (setColumn df1 a (toNumericCell toN)) a fillnaCell
    else df1
  | none => df1

/- ## Aliasing model of `enforce_types` (for the frame condition)

Pandas objects live on a heap of DataFrame values addressed by `Nat`
references.  `df.copy()` and `df.dropna(...)` allocate fresh objects;
`df[col] = ...` mutates the object its reference points at. -/

/-- The heap: one DataFrame value per allocated reference. -/
abbrev Heap := List DataFrame

/-- Allocate a fresh object, returning the new heap and its reference. -/
def halloc (h : Heap) (v : DataFrame) : Heap × Nat :=
  (h ++ [v], h.length)

/-- Overwrite the object at a reference (in-place mutation). -/
def hwrite (h : Heap) (r : Nat) (v : DataFrame) : Heap := h.set r v

/-- Dereference. -/
def hread (h : Heap) (r : Nat) : DataFrame := h.getD r ⟨[], []⟩

/-- The date block of `enforce_types` on the heap:
`df[date_col] = pd.to_datetime(df[date_col], errors='coerce')` mutates the
object at `r` in place, then `df = df.dropna(subset=[date_col])` allocates
the filtered frame and rebinds the local variable. -/
def dateStageHeap (toDT : Cell → Option Int) (h : Heap) (r : Nat)
    (dc : Option String) : Heap × Nat :=
  match dc with
  | some d =>
    if colOk (hread h r) (some d) then
      let hA := hwrite h r (setColumn (hread h r) d (toDatetimeCell toDT))
      halloc hA (dropnaSubset (hread hA r) d)
    else (h, r)
  | none => (h, r)

/-- The amount block of `enforce_types` on the heap: two in-place column
assignments (`to_numeric` then `fillna(0)`) on the current object. -/
def amountStageHeap (toN : Cell → Option ℚ) (h : Heap) (r : Nat)
    (ac : Option String) : Heap :=
  match ac with
  | some a =>
    if colOk (hread h r) (some a) then
      let hB := hwrite h r (setColumn (hread h r) a (toNumericCell toN))
      hwrite hB r (setColumn (hread hB r) a fillnaCell)
    else h
  | none => h

/-- `enforce_types` as the sequence of heap effects the Python body
performs on the object graph: `df = df.copy()` allocates a fresh object,
the two blocks then act on the local variable.  Returns the final heap and
the reference the function returns. -/
def enforceTypesHeap (toDT : Cell → Option Int) (toN : Cell → Option ℚ)
    (h : Heap) (argRef : Nat) (dc ac : Option String) : Heap × Nat :=
  let s1 := halloc h (hread h argRef)
  let s2 := dateStageHeap toDT s1.1 s1.2 dc
  (amountStageHeap toN s2.1 s2.2 ac, s2.2)

/- ## Table ingestion (`read_table`) -/

/-- The characters after the last '/' of a path (its final component;
`os.path.splitext` looks for the extension dot only there). -/
def baseChars (s : List Char) : List Char :=
  ((s.reverse.takeWhile (fun c => c ≠ '/')).reverse)

/-- The extension `os.path.splitext(path)[1]` of a final component: from
its last dot, provided some earlier character of the component is not a
dot (so dotfiles like `.bashrc` have no extension). -/
def extCharsOf (b : List Char) : List Char :=
  let after := (b.reverse.takeWhile (fun c => c ≠ '.')).reverse
  if after.length = b.length then []
  else if (b.take (b.length - after.length - 1)).any (fun c => c ≠ '.') then
    '.' :: after
  else []

/-- `os.path.splitext(path)[1].lower()`. -/
def lowerExt (path : String) : String :=
  String.mk ((extCharsOf (baseChars path.data)).map Char.toLower)

/-- The environment `read_table` runs against: which paths exist, and what
`pd.read_csv` / `json.load`+`pd.DataFrame` produce on each path (`none`
models a parse error). -/
structure FileSys where
  fexists : String → Bool
  parseCsv : String → Option DataFrame
  parseJson : String → Option DataFrame

/-- The two ways `read_table` fails. -/
inductive ReadErr where
  | fileNotFound : ReadErr
  | valueErr : ReadErr
deriving DecidableEq, Repr

/-- `read_table(path)`: `FileNotFoundError` when the path does not exist;
otherwise dispatch on the lower-cased extension, wrapping every failure
inside the `try` (including the unsupported-format branch) as
`ValueError`. -/
def read_table (fs : FileSys) (path : String) : Except ReadErr DataFrame :=
  if fs.fexists path = false then Except.error ReadErr.fileNotFound
  else
    let ext := lowerExt path
    if ext = ".csv" then
      match fs.parseCsv path with
      | some df => Except.ok df
      | none => Except.error ReadErr.valueErr
    else if ext = ".json" then
      match fs.parseJson path with
      | some df => Except.ok df
      | none => Except.error ReadErr.valueErr
    else Except.error ReadErr.valueErr

/-- A file system in which no path exists. -/
def fsNone : FileSys := ⟨fun _ => false, fun _ => none, fun _ => none⟩

/-- A file system in which every path exists and nothing parses. -/
def fsAll : FileSys := ⟨fun _ => true, fun _ => none, fun _ => none⟩

/- ## Shared lemmas -/

theorem colOk_eq_true (df : DataFrame) (a : String) (h1 : a ≠ "") (h2 : a ∈ df.cols) :
    colOk df (some a) = true := by
  simp [colOk, h1, h2]

theorem colOk_none (df : DataFrame) : colOk df none = false := rfl

theorem colOk_not_mem (df : DataFrame) (a : String) (h : a ∉ df.cols) :
    colOk df (some a) = false := by
  simp only [colOk, Bool.and_eq_false_iff]
  right
  simpa using h

/- ## C4, C8, C9: scalar metrics -/

/-- C4.  When `amount_col` (a non-empty name) is a column of the DataFrame,
`compute_metrics` returns `total_sales` equal to the sum of that column and
`avg_ticket` equal to its mean; when `amount_col` is None or not a column,
both are 0.0. -/
theorem compute_metrics_scalar_metrics (df : DataFrame) (dc : Option String)
    (topn : Nat) (a : String) :
    (a ≠ "" → a ∈ df.cols →
      (compute_metrics df dc (some a) topn).total_sales = PFloat.val (colSum df a) ∧
      (compute_metrics df dc (some a) topn).avg_ticket = colMean df a) ∧
    ((compute_metrics df dc none topn).total_sales = PFloat.val 0 ∧
      (compute_metrics df dc none topn).avg_ticket = PFloat.val 0) ∧
    (a ∉ df.cols →
      (compute_metrics df dc (some a) topn).total_sales = PFloat.val 0 ∧
      (compute_metrics df dc (some a) topn).avg_ticket = PFloat.val 0) := by
  refine ⟨fun h1 h2 => ?_, ⟨rfl, rfl⟩, fun h => ?_⟩
  · simp [compute_metrics, colOk_eq_true df a h1 h2]
  · simp [compute_metrics, colOk_not_mem df a h]

/-- Witness for C4 on a concrete two-row table. -/
theorem compute_metrics_scalar_metrics_witness :
    (compute_metrics ⟨["amount"], [[Cell.num 3], [Cell.num 5]]⟩ none (some "amount") 5).total_sales
        = PFloat.val (colSum ⟨["amount"], [[Cell.num 3], [Cell.num 5]]⟩ "amount") ∧
    (compute_metrics ⟨["amount"], [[Cell.num 3], [Cell.num 5]]⟩ none (some "amount") 5).avg_ticket
        = colMean ⟨["amount"], [[Cell.num 3], [Cell.num 5]]⟩ "amount" :=
  (compute_metrics_scalar_metrics ⟨["amount"], [[Cell.num 3], [Cell.num 5]]⟩ none 5 "amount").1
    (by decide) (by simp)

/-- C8.  `total_orders` is always the number of rows of the input, whatever
the column designators are. -/
theorem compute_metrics_total_orders (df : DataFrame) (dc ac : Option String)
    (topn : Nat) :
    (compute_metrics df dc ac topn).total_orders = df.rows.length := rfl

/-- C9.  On a zero-row DataFrame whose columns do contain `amount_col`,
`total_sales` is 0.0 while `avg_ticket` is NaN (the mean of an empty
column), not the 0.0 of the missing-column branch. -/
theorem compute_metrics_empty_avg_ticket_nan (df : DataFrame) (dc : Option String)
    (topn : Nat) (a : String) (h1 : a ≠ "") (h2 : a ∈ df.cols)
    (h3 : df.rows = []) :
    (compute_metrics df dc (some a) topn).total_sales = PFloat.val 0 ∧
    (compute_metrics df dc (some a) topn).avg_ticket = PFloat.nan := by
  have hs : colSum df a = 0 := by simp [colSum, colCells, h3]
  have hc : numCount df a = 0 := by simp [numCount, colCells, h3]
  simp [compute_metrics, colOk_eq_true df a h1 h2, colMean, hc, hs]

/-- Witness for C9: an empty table with an 'amount' column. -/
theorem compute_metrics_empty_avg_ticket_nan_witness :
    (compute_metrics ⟨["amount"], []⟩ none (some "amount") 5).total_sales = PFloat.val 0 ∧
    (compute_metrics ⟨["amount"], []⟩ none (some "amount") 5).avg_ticket = PFloat.nan :=
  compute_metrics_empty_avg_ticket_nan ⟨["amount"], []⟩ none 5 "amount"
    (by decide) (by simp) rfl

/- ## C3: grouping-column inference -/

/-- C3.  The grouping column is the first of 'item', 'product', 'name',
'category' (in that order, exact match) occurring among the columns; when
none occurs, or `amount_col` is absent or not a column, `_get_top_items`
returns the empty frame with columns ['item', 'amount']. -/
theorem getTopItems_item_col_inference (df : DataFrame) (ac : Option String) (topn : Nat) :
    (findItemCol df =
      (if df.cols.contains "item" then some "item"
       else if df.cols.contains "product" then some "product"
       else if df.cols.contains "name" then some "name"
       else if df.cols.contains "category" then some "category"
       else none)) ∧
    ((findItemCol df = none ∨ ac = none ∨ (∃ a, ac = some a ∧ a ∉ df.cols)) →
      getTopItems df ac topn = ⟨["item", "amount"], []⟩) := by
  constructor
  · by_cases h1 : "item" ∈ df.cols <;>
      by_cases h2 : "product" ∈ df.cols <;>
        by_cases h3 : "name" ∈ df.cols <;>
          by_cases h4 : "category" ∈ df.cols <;>
            simp [findItemCol, itemColNames, List.find?, h1, h2, h3, h4]
  · rintro (h | h | ⟨a, rfl, ha⟩)
    · simp [getTopItems, h, emptyTop]
    · subst h
      cases hf : findItemCol df <;> simp [getTopItems, hf, colOk, emptyTop]
    · cases hf : findItemCol df <;>
        simp [getTopItems, hf, colOk_not_mem df a ha, emptyTop]

/-- Witness for C3: a frame with both 'name' and 'category' picks 'name';
the fallback fires when the amount column is absent. -/
theorem getTopItems_item_col_inference_witness :
    (findItemCol ⟨["name", "category"], []⟩ =
      (if List.contains ["name", "category"] "item" then some "item"
       else if List.contains ["name", "category"] "product" then some "product"
       else if List.contains ["name", "category"] "name" then some "name"
       else if List.contains ["name", "category"] "category" then some "category"
       else none)) ∧
    getTopItems ⟨["name", "category"], []⟩ (some "amt") 5 = ⟨["item", "amount"], []⟩ := by
  refine ⟨(getTopItems_item_col_inference ⟨["name", "category"], []⟩ (some "amt") 5).1, ?_⟩
  exact (getTopItems_item_col_inference ⟨["name", "category"], []⟩ (some "amt") 5).2
    (Or.inr (Or.inr ⟨"amt", rfl, by decide⟩))

/- ## C1: resampling-frequency selection -/

/-- C1.  For a non-empty grouped time series, the resampling granularity
is derived from the span in days between the maximum and minimum date:
'MS' exactly when the span exceeds 180 days, 'W-MON' exactly when it
exceeds 60 days but is at most 180, and 'D' exactly when it is at most
60. -/
theorem compute_metrics_freq_selection (df : DataFrame) (d a : String) (topn : Nat)
    (hd : colOk df (some d) = true) (ha : colOk df (some a) = true)
    (hne : tsGroups (tsPairs df d a) ≠ []) :
    (compute_metrics df (some d) (some a) topn).ts_freq =
      some (chooseFreq (dateRangeOf (tsGroups (tsPairs df d a)))) ∧
    (∀ r : Int,
      (chooseFreq r = Freq.MS ↔ 180 < r) ∧
      (chooseFreq r = Freq.WMon ↔ 60 < r ∧ r ≤ 180) ∧
      (chooseFreq r = Freq.D ↔ r ≤ 60)) := by
  constructor
  · have : (tsGroups (tsPairs df d a)).isEmpty = false := by
      simpa [List.isEmpty_iff] using hne
    simp [compute_metrics, getTimeSeriesFreq, hd, ha, this]
  · intro r
    unfold chooseFreq
    split_ifs with hA hB <;> refine ⟨?_, ?_, ?_⟩ <;> simp <;> omega

/-- Witness for C1: two dates 190 days apart select monthly resampling. -/
theorem compute_metrics_freq_selection_witness :
    (compute_metrics ⟨["d", "amt"], [[Cell.date 0, Cell.num 1], [Cell.date 190, Cell.num 2]]⟩
        (some "d") (some "amt") 5).ts_freq =
      some (chooseFreq (dateRangeOf (tsGroups (tsPairs
        ⟨["d", "amt"], [[Cell.date 0, Cell.num 1], [Cell.date 190, Cell.num 2]]⟩ "d" "amt")))) :=
  (compute_metrics_freq_selection
    ⟨["d", "amt"], [[Cell.date 0, Cell.num 1], [Cell.date 190, Cell.num 2]]⟩
    "d" "amt" 5 rfl rfl (by decide)).1

/- ## C6: table ingestion -/

/-- Counterexample to C6 as stated: `data.txt` has an extension that is
neither '.csv' nor '.json', yet on a non-existent `data.txt` the function
raises FileNotFoundError, not the ValueError the claim asserts for every
such path (the existence check runs first). -/
theorem read_table_cex :
    lowerExt "data.txt" ≠ ".csv" ∧ lowerExt "data.txt" ≠ ".json" ∧
    read_table fsNone "data.txt" = Except.error ReadErr.fileNotFound ∧
    read_table fsNone "data.txt" ≠ Except.error ReadErr.valueErr := by
  refine ⟨by decide, by decide, rfl, ?_⟩
  intro h
  exact absurd (congrArg (fun e => match e with
    | Except.error ReadErr.valueErr => true
    | _ => false) h) (by decide)

/-- C6 (amended).  A non-existent path always raises FileNotFoundError;
an existing path whose lower-cased extension is neither '.csv' nor '.json'
raises ValueError; a DataFrame is returned only for an existing path whose
extension is '.csv' or '.json' and whose contents parse. -/
theorem read_table_formats (fs : FileSys) (path : String) :
    (fs.fexists path = false → read_table fs path = Except.error ReadErr.fileNotFound) ∧
    (fs.fexists path = true → lowerExt path ≠ ".csv" → lowerExt path ≠ ".json" →
      read_table fs path = Except.error ReadErr.valueErr) ∧
    (∀ df : DataFrame, read_table fs path = Except.ok df →
      fs.fexists path = true ∧
      ((lowerExt path = ".csv" ∧ fs.parseCsv path = some df) ∨
       (lowerExt path = ".json" ∧ fs.parseJson path = some df))) := by
  refine ⟨fun h => by simp [read_table, h], fun h h1 h2 => by simp [read_table, h, h1, h2],
    fun df h => ?_⟩
  by_cases he : fs.fexists path = false
  · simp [read_table, he] at h
  · have he' : fs.fexists path = true := by
      cases hv : fs.fexists path
      · exact absurd hv he
      · rfl
    refine ⟨he', ?_⟩
    by_cases h1 : lowerExt path = ".csv"
    · left
      refine ⟨h1, ?_⟩
      simp only [read_table, he', Bool.true_eq_false, if_false, h1, if_true] at h
      cases hp : fs.parseCsv path <;> simp [hp] at h
      exact congrArg some h
    · by_cases h2 : lowerExt path = ".json"
      · right
        refine ⟨h2, ?_⟩
        simp only [read_table, he', Bool.true_eq_false, if_false, h1, if_false, h2, if_true] at h
        cases hp : fs.parseJson path <;> simp [hp] at h
        exact congrArg some h
      · simp [read_table, he', h1, h2] at h

/-- Witness for the amended C6: an existing '.xml' path yields ValueError,
and a case-insensitively matched existing '.CSV' path that parses is
returned. -/
theorem read_table_formats_witness :
    read_table fsAll "report.xml" = Except.error ReadErr.valueErr :=
  (read_table_formats fsAll "report.xml").2.1 rfl (by decide) (by decide)

/- ## C2: top-N groups -/

/-- C2.  With a detected grouping column and a valid amount column, the
'top_items' entry has at most `topn` rows and exactly `min topn #groups`
of them (so no group is omitted while room remains); its rows are
aggregated groups ordered by aggregated amount descending, and every
retained group's amount is at least every discarded group's amount (so
they are the `topn` groups of highest aggregated amount). -/
theorem compute_metrics_top_items (df : DataFrame) (ic a : String) (dc : Option String)
    (topn : Nat) (hic : findItemCol df = some ic) (ha : colOk df (some a) = true) :
    ∃ tops : List (Cell × ℚ),
      (compute_metrics df dc (some a) topn).top_items =
        ⟨["item", "amount"], tops.map (fun p => [p.1, Cell.num p.2])⟩ ∧
      tops.length ≤ topn ∧
      tops.length = min topn (groupSums (topPairs df ic a)).length ∧
      List.Sorted geSnd tops ∧
      (∀ p ∈ tops, p ∈ groupSums (topPairs df ic a)) ∧
      (∀ q ∈ groupSums (topPairs df ic a), q ∉ tops → ∀ p ∈ tops, q.2 ≤ p.2) := by
  refine ⟨((groupSums (topPairs df ic a)).insertionSort geSnd).take topn,
    ?_, ?_, ?_, ?_, ?_, ?_⟩
  · show getTopItems df (some a) topn = _
    simp [getTopItems, hic, ha]
  · simp [List.length_take]
  · rw [List.length_take, (List.perm_insertionSort geSnd _).length_eq]
  · exact (List.sorted_insertionSort geSnd _).sublist (List.take_sublist _ _)
  · intro p hp
    exact (List.perm_insertionSort geSnd _).mem_iff.1 (List.take_subset _ _ hp)
  · intro q hq hqn p hp
    have hq' : q ∈ (groupSums (topPairs df ic a)).insertionSort geSnd :=
      (List.perm_insertionSort geSnd _).mem_iff.2 hq
    rw [← List.take_append_drop topn ((groupSums (topPairs df ic a)).insertionSort geSnd)]
      at hq'
    rcases List.mem_append.1 hq' with hq'' | hq''
    · exact absurd hq'' hqn
    · exact (List.sorted_insertionSort geSnd _).rel_of_mem_take_of_mem_drop hp hq''

/-- Witness for C2 on a four-row table grouped by 'product'. -/
theorem compute_metrics_top_items_witness :
    ∃ tops : List (Cell × ℚ),
      (compute_metrics ⟨["product", "amount"],
          [[Cell.str "a", Cell.num 5], [Cell.str "b", Cell.num 7],
           [Cell.str "a", Cell.num 1], [Cell.str "c", Cell.num 7]]⟩
        none (some "amount") 2).top_items =
        ⟨["item", "amount"], tops.map (fun p => [p.1, Cell.num p.2])⟩ ∧
      tops.length ≤ 2 ∧
      tops.length = min 2 (groupSums (topPairs ⟨["product", "amount"],
          [[Cell.str "a", Cell.num 5], [Cell.str "b", Cell.num 7],
           [Cell.str "a", Cell.num 1], [Cell.str "c", Cell.num 7]]⟩ "product" "amount")).length ∧
      List.Sorted geSnd tops ∧
      (∀ p ∈ tops, p ∈ groupSums (topPairs ⟨["product", "amount"],
          [[Cell.str "a", Cell.num 5], [Cell.str "b", Cell.num 7],
           [Cell.str "a", Cell.num 1], [Cell.str "c", Cell.num 7]]⟩ "product" "amount")) ∧
      (∀ q ∈ groupSums (topPairs ⟨["product", "amount"],
          [[Cell.str "a", Cell.num 5], [Cell.str "b", Cell.num 7],
           [Cell.str "a", Cell.num 1], [Cell.str "c", Cell.num 7]]⟩ "product" "amount"),
        q ∉ tops → ∀ p ∈ tops, q.2 ≤ p.2) :=
  compute_metrics_top_items ⟨["product", "amount"],
      [[Cell.str "a", Cell.num 5], [Cell.str "b", Cell.num 7],
       [Cell.str "a", Cell.num 1], [Cell.str "c", Cell.num 7]]⟩
    "product" "amount" none 2 rfl rfl

/- ## C7: time-series grouping -/

theorem tsGroups_map_fst (ps : List (Int × ℚ)) :
    (tsGroups ps).map Prod.fst = tsKeys ps := by
  unfold tsGroups
  rw [List.map_map]
  have h : (Prod.fst ∘ fun k : Int => (k, tsSum ps k)) = id := rfl
  rw [h, List.map_id]

theorem tsKeys_nodup (ps : List (Int × ℚ)) : (tsKeys ps).Nodup :=
  ((List.perm_insertionSort _ _).nodup_iff).2 (List.nodup_dedup _)

theorem tsKeys_sorted (ps : List (Int × ℚ)) :
    List.Sorted (fun x y : Int => x ≤ y) (tsKeys ps) :=
  List.sorted_insertionSort _ _

theorem tsKeys_mem (ps : List (Int × ℚ)) (k : Int) :
    k ∈ tsKeys ps ↔ k ∈ ps.map Prod.fst := by
  unfold tsKeys
  rw [(List.perm_insertionSort _ _).mem_iff, List.mem_dedup]

theorem ts_filter_snd_eq (rows : List (List Cell)) (di ai : Nat) (k : Int) :
    (((rows.filterMap (fun r =>
        match cellAt r di with
        | Cell.date t => some (t, (cellNum (cellAt r ai)).getD 0)
        | _ => none)).filter (fun p => p.1 = k)).map Prod.snd) =
    ((rows.filter (fun r => cellAt r di == Cell.date k)).map
      (fun r => (cellNum (cellAt r ai)).getD 0)) := by
  induction rows with
  | nil => rfl
  | cons r rs ih =>
    cases h : cellAt r di <;>
      simp only [List.filterMap_cons, h, List.filter_cons]
    case na => simpa [h] using ih
    case num q => simpa [h] using ih
    case str s => simpa [h] using ih
    case date t =>
      by_cases htk : t = k
      · subst htk
        simpa [h, List.filter_cons] using ih
      · simpa [h, htk, List.filter_cons] using ih

/-- C7.  The 'time_series' entry is the per-date grouping of the rows with
the amounts summed inside each date group (the series that `_get_time_series`
then resamples): the group keys are exactly the distinct dates of the date
column, ascending, and each group's amount is the sum over the rows of
that date.  Whenever `date_col` or `amount_col` is missing, the entry is
an empty frame with columns ['date', 'amount']. -/
theorem compute_metrics_time_series (df : DataFrame) (dc ac : Option String) (topn : Nat) :
    ((colOk df dc = false ∨ colOk df ac = false) →
      (compute_metrics df dc ac topn).time_series = ⟨["date", "amount"], []⟩) ∧
    (∀ d a, dc = some d → ac = some a →
      colOk df dc = true → colOk df ac = true →
      ∃ g : List (Int × ℚ),
        (compute_metrics df dc ac topn).time_series =
          ⟨["date", "amount"], g.map (fun p => [Cell.date p.1, Cell.num p.2])⟩ ∧
        (g.map Prod.fst).Nodup ∧
        List.Sorted (fun x y : Int => x ≤ y) (g.map Prod.fst) ∧
        (∀ t : Int, (∃ r ∈ df.rows, cellAt r (colIndex df d) = Cell.date t) ↔
            t ∈ g.map Prod.fst) ∧
        (∀ k s, (k, s) ∈ g →
          s = (((df.rows.filter (fun r => cellAt r (colIndex df d) == Cell.date k)).map
              (fun r => (cellNum (cellAt r (colIndex df a))).getD 0)).foldr (· + ·) 0))) := by
  constructor
  · rcases dc with _ | d <;> rcases ac with _ | a
    · intro _; rfl
    · intro _; rfl
    · intro _; rfl
    · intro h
      rcases h with h | h <;> simp [compute_metrics, getTimeSeriesGrouped, h]
  · rintro d a rfl rfl hd' ha'
    refine ⟨tsGroups (tsPairs df d a), ?_, ?_, ?_, ?_, ?_⟩
    · simp [compute_metrics, getTimeSeriesGrouped, hd', ha']
    · rw [tsGroups_map_fst]; exact tsKeys_nodup _
    · rw [tsGroups_map_fst]; exact tsKeys_sorted _
    · intro t
      rw [tsGroups_map_fst, tsKeys_mem]
      constructor
      · rintro ⟨r, hr, hcell⟩
        refine List.mem_map.2 ⟨(t, (cellNum (cellAt r (colIndex df a))).getD 0), ?_, rfl⟩
        exact List.mem_filterMap.2 ⟨r, hr, by rw [hcell]⟩
      · intro ht
        obtain ⟨p, hp, hfst⟩ := List.mem_map.1 ht
        obtain ⟨r, hr, hsome⟩ := List.mem_filterMap.1 hp
        refine ⟨r, hr, ?_⟩
        cases h : cellAt r (colIndex df d) <;> rw [h] at hsome <;>
          simp only [Option.some.injEq, reduceCtorEq] at hsome
        rw [← hsome] at hfst
        simp at hfst
        rw [hfst]
    · intro k s hks
      obtain ⟨k', hk', heq⟩ := List.mem_map.1 hks
      obtain ⟨hk, hs⟩ := Prod.mk.injEq .. ▸ heq
      subst hk
      rw [← hs]
      show (((tsPairs df d a).filter (fun p => p.1 = k')).map Prod.snd).foldr (· + ·) 0 = _
      rw [show tsPairs df d a = df.rows.filterMap (fun r =>
        match cellAt r (colIndex df d) with
        | Cell.date t => some (t, (cellNum (cellAt r (colIndex df a))).getD 0)
        | _ => none) from rfl]
      rw [ts_filter_snd_eq]

/-- Witness for C7 on a three-row table with two distinct dates. -/
theorem compute_metrics_time_series_witness :
    ∃ g : List (Int × ℚ),
      (compute_metrics ⟨["d", "amt"],
          [[Cell.date 10, Cell.num 3], [Cell.date 500, Cell.num 4], [Cell.date 10, Cell.num 1]]⟩
        (some "d") (some "amt") 5).time_series =
        ⟨["date", "amount"], g.map (fun p => [Cell.date p.1, Cell.num p.2])⟩ ∧
      (g.map Prod.fst).Nodup ∧
      List.Sorted (fun x y : Int => x ≤ y) (g.map Prod.fst) ∧
      (∀ t : Int, (∃ r ∈ [[Cell.date 10, Cell.num 3], [Cell.date 500, Cell.num 4],
          [Cell.date 10, Cell.num 1]], cellAt r 0 = Cell.date t) ↔ t ∈ g.map Prod.fst) ∧
      (∀ k s, (k, s) ∈ g →
        s = ((([[Cell.date 10, Cell.num 3], [Cell.date 500, Cell.num 4],
            [Cell.date 10, Cell.num 1]].filter (fun r => cellAt r 0 == Cell.date k)).map
            (fun r => (cellNum (cellAt r 1)).getD 0)).foldr (· + ·) 0)) :=
  (compute_metrics_time_series ⟨["d", "amt"],
      [[Cell.date 10, Cell.num 3], [Cell.date 500, Cell.num 4], [Cell.date 10, Cell.num 1]]⟩
    (some "d") (some "amt") 5).2 "d" "amt" rfl rfl rfl rfl

/- ## C5: type coercion -/

theorem cellAt_set_self (r : List Cell) (i : Nat) (v : Cell) (h : i < r.length) :
    cellAt (r.set i v) i = v := by
  simp [cellAt, List.getD_eq_getElem?_getD, List.getElem?_set_self h]

theorem cellAt_set_ne (r : List Cell) (i j : Nat) (v : Cell) (h : i ≠ j) :
    cellAt (r.set i v) j = cellAt r j := by
  simp [cellAt, List.getD_eq_getElem?_getD, List.getElem?_set_ne h]

theorem filter_map_eq_filterMap {α β : Type} (l : List α) (p : α → Bool) (g : α → β)
    (f : α → Option β) (h : ∀ x ∈ l, f x = if p x then some (g x) else none) :
    (l.filter p).map g = l.filterMap f := by
  induction l with
  | nil => rfl
  | cons x xs ih =>
    have hx := h x (List.mem_cons_self x xs)
    have ih' := ih (fun y hy => h y (List.mem_cons_of_mem x hy))
    cases hpx : p x <;>
      rw [List.filter_cons, List.filterMap_cons, hpx, hx, hpx] <;> simp [ih']

theorem fillna_toNumeric (toN : Cell → Option ℚ) (c : Cell) :
    fillnaCell (toNumericCell toN c) = Cell.num ((toN c).getD 0) := by
  unfold fillnaCell toNumericCell
  cases toN c <;> rfl

theorem colIndex_lt (df : DataFrame) (c : String) (h : c ∈ df.cols) :
    colIndex df c < df.cols.length := List.indexOf_lt_length.2 h

/-- C5.  `enforce_types` coerces: with a valid date column, its cells are
parsed and rows whose cell fails to parse are removed; with a valid amount
column, its cells are coerced to numbers with failures becoming 0; all
other cells of the surviving rows are untouched, and the columns are
unchanged.  The three conjuncts cover both columns valid, only the date
column designated, and only the amount column designated. -/
theorem enforce_types_coercion (toDT : Cell → Option Int) (toN : Cell → Option ℚ)
    (df : DataFrame) (d a : String)
    (hwf : ∀ r ∈ df.rows, r.length = df.cols.length) :
    (d ≠ "" → d ∈ df.cols → a ≠ "" → a ∈ df.cols → d ≠ a →
      (enforce_types toDT toN df (some d) (some a)).cols = df.cols ∧
      (enforce_types toDT toN df (some d) (some a)).rows =
        df.rows.filterMap (fun r =>
          match toDT (cellAt r (colIndex df d)) with
          | none => none
          | some t => some ((r.set (colIndex df d) (Cell.date t)).set (colIndex df a)
              (Cell.num ((toN (cellAt r (colIndex df a))).getD 0)))) ∧
      (∀ r' ∈ (enforce_types toDT toN df (some d) (some a)).rows,
        ∃ r ∈ df.rows, ∀ j : Nat, j ≠ colIndex df d → j ≠ colIndex df a →
          cellAt r' j = cellAt r j)) ∧
    (d ≠ "" → d ∈ df.cols →
      (enforce_types toDT toN df (some d) none).cols = df.cols ∧
      (enforce_types toDT toN df (some d) none).rows =
        df.rows.filterMap (fun r =>
          match toDT (cellAt r (colIndex df d)) with
          | none => none
          | some t => some (r.set (colIndex df d) (Cell.date t)))) ∧
    (a ≠ "" → a ∈ df.cols →
      (enforce_types toDT toN df none (some a)).cols = df.cols ∧
      (enforce_types toDT toN df none (some a)).rows =
        df.rows.map (fun r =>
          r.set (colIndex df a) (Cell.num ((toN (cellAt r (colIndex df a))).getD 0)))) := by
  refine ⟨fun hd hdc ha hac hda => ?_, fun hd hdc => ?_, fun ha hac => ?_⟩
  · have hokd : colOk df (some d) = true := colOk_eq_true df d hd hdc
    have hoka : colOk df (some a) = true := colOk_eq_true df a ha hac
    have hne : colIndex df d ≠ colIndex df a :=
      fun h => hda ((List.indexOf_inj hdc hac).1 h)
    have hunf : enforce_types toDT toN df (some d) (some a) =
        setColumn (setColumn (dropnaSubset (setColumn df d (toDatetimeCell toDT)) d) a
          (toNumericCell toN)) a fillnaCell := by
      have hoka' : colOk (dropnaSubset (setColumn df d (toDatetimeCell toDT)) d)
          (some a) = true := hoka
      unfold enforce_types
      simp only [hokd, if_true, hoka', if_true]
    have hrows : (enforce_types toDT toN df (some d) (some a)).rows =
        df.rows.filterMap (fun r =>
          match toDT (cellAt r (colIndex df d)) with
          | none => none
          | some t => some ((r.set (colIndex df d) (Cell.date t)).set (colIndex df a)
              (Cell.num ((toN (cellAt r (colIndex df a))).getD 0)))) := by
      rw [hunf]
      show ((((df.rows.map _).filter _).map _).map _) = _
      rw [List.filter_map, List.map_map, List.map_map]
      refine filter_map_eq_filterMap _ _ _ _ (fun r hr => ?_)
      have hlen : r.length = df.cols.length := hwf r hr
      have hdi : colIndex df d < r.length := hlen ▸ colIndex_lt df d hdc
      have hai : colIndex df a < r.length := hlen ▸ colIndex_lt df a hac
      show (match toDT (cellAt r (colIndex df d)) with
        | none => none
        | some t => some ((r.set (colIndex df d) (Cell.date t)).set (colIndex df a)
            (Cell.num ((toN (cellAt r (colIndex df a))).getD 0)))) = _
      cases hdt : toDT (cellAt r (colIndex df d))
      case none =>
        have hcell : cellAt (r.set (colIndex df d)
            (toDatetimeCell toDT (cellAt r (colIndex df d)))) (colIndex df d) = Cell.na := by
          rw [cellAt_set_self _ _ _ hdi]
          unfold toDatetimeCell
          rw [hdt]
        simp only [Function.comp, setColumn, dropnaSubset, colIndex] at *
        rw [if_neg]
        simp [hcell]
      case some t =>
        have hcell : cellAt (r.set (colIndex df d)
            (toDatetimeCell toDT (cellAt r (colIndex df d)))) (colIndex df d) =
            Cell.date t := by
          rw [cellAt_set_self _ _ _ hdi]
          unfold toDatetimeCell
          rw [hdt]
        have hm1 : r.set (colIndex df d) (toDatetimeCell toDT (cellAt r (colIndex df d))) =
            r.set (colIndex df d) (Cell.date t) := by
          unfold toDatetimeCell
          rw [hdt]
        have hamt : cellAt (r.set (colIndex df d) (Cell.date t)) (colIndex df a) =
            cellAt r (colIndex df a) := cellAt_set_ne _ _ _ _ hne
        have hai' : colIndex df a < (r.set (colIndex df d) (Cell.date t)).length := by
          rw [List.length_set]; exact hai
        simp only [Function.comp, setColumn, dropnaSubset, colIndex] at *
        rw [if_pos]
        · rw [hm1, hamt, cellAt_set_self _ _ _ hai', List.set_set, fillna_toNumeric]
        · simp [hcell]
    refine ⟨by rw [hunf]; rfl, hrows, fun r' hr' => ?_⟩
    rw [hrows] at hr'
    obtain ⟨r, hr, hsome⟩ := List.mem_filterMap.1 hr'
    refine ⟨r, hr, fun j hjd hja => ?_⟩
    cases hdt : toDT (cellAt r (colIndex df d)) <;> rw [hdt] at hsome
    · exact absurd hsome (by simp)
    · simp only [Option.some.injEq] at hsome
      rw [← hsome, cellAt_set_ne _ _ _ _ (fun h => hja h.symm),
        cellAt_set_ne _ _ _ _ (fun h => hjd h.symm)]
  · have hokd : colOk df (some d) = true := colOk_eq_true df d hd hdc
    have hunf : enforce_types toDT toN df (some d) none =
        dropnaSubset (setColumn df d (toDatetimeCell toDT)) d := by
      unfold enforce_types
      simp only [hokd, if_true]
    refine ⟨by rw [hunf]; rfl, ?_⟩
    rw [hunf]
    show ((df.rows.map _).filter _) = _
    rw [List.filter_map]
    refine filter_map_eq_filterMap _ _ _ _ (fun r hr => ?_)
    have hlen : r.length = df.cols.length := hwf r hr
    have hdi : colIndex df d < r.length := hlen ▸ colIndex_lt df d hdc
    cases hdt : toDT (cellAt r (colIndex df d))
    case none =>
      have hcell : cellAt (r.set (colIndex df d)
          (toDatetimeCell toDT (cellAt r (colIndex df d)))) (colIndex df d) = Cell.na := by
        rw [cellAt_set_self _ _ _ hdi]
        unfold toDatetimeCell
        rw [hdt]
      simp only [Function.comp, setColumn, colIndex] at *
      rw [if_neg]
      simp [hcell]
    case some t =>
      have hcell : cellAt (r.set (colIndex df d)
          (toDatetimeCell toDT (cellAt r (colIndex df d)))) (colIndex df d) =
          Cell.date t := by
        rw [cellAt_set_self _ _ _ hdi]
        unfold toDatetimeCell
        rw [hdt]
      have hm1 : r.set (colIndex df d) (toDatetimeCell toDT (cellAt r (colIndex df d))) =
          r.set (colIndex df d) (Cell.date t) := by
        unfold toDatetimeCell
        rw [hdt]
      simp only [Function.comp, setColumn, colIndex] at *
      rw [if_pos]
      · rw [hm1]
      · simp [hcell]
  · have hoka : colOk df (some a) = true := colOk_eq_true df a ha hac
    have hunf : enforce_types toDT toN df none (some a) =
        setColumn (setColumn df a (toNumericCell toN)) a fillnaCell := by
      unfold enforce_types
      simp only [hoka, if_true]
    refine ⟨by rw [hunf]; rfl, ?_⟩
    rw [hunf]
    show ((df.rows.map _).map _) = _
    rw [List.map_map]
    refine List.map_congr_left (fun r hr => ?_)
    have hlen : r.length = df.cols.length := hwf r hr
    have hai : colIndex df a < r.length := hlen ▸ colIndex_lt df a hac
    have hai' : colIndex df a <
        (r.set (colIndex df a) (toNumericCell toN (cellAt r (colIndex df a)))).length := by
      rw [List.length_set]; exact hai
    show (r.set (colIndex df a)
        (toNumericCell toN (cellAt r (colIndex df a)))).set (colIndex df a)
          (fillnaCell (cellAt (r.set (colIndex df a)
            (toNumericCell toN (cellAt r (colIndex df a)))) (colIndex df a))) = _
    rw [cellAt_set_self _ _ _ hai, List.set_set, fillna_toNumeric]

/-- Witness for C5 on a three-row table with 'date', 'amount' and an
extra column, under concrete parse functions. -/
theorem enforce_types_coercion_witness :
    (enforce_types
        (fun c => match c with | Cell.str "2024-01-01" => some 100 | Cell.date t => some t | _ => none)
        (fun c => match c with | Cell.num q => some q | Cell.str "5" => some 5 | _ => none)
        ⟨["date", "amount", "other"],
          [[Cell.str "2024-01-01", Cell.str "5", Cell.str "k"],
           [Cell.str "bad", Cell.num 9, Cell.str "l"],
           [Cell.date 7, Cell.str "oops", Cell.str "m"]]⟩
        (some "date") (some "amount")).rows =
      [[Cell.date 100, Cell.num 5, Cell.str "k"], [Cell.date 7, Cell.num 0, Cell.str "m"]] := by
  have h := (enforce_types_coercion
    (fun c => match c with | Cell.str "2024-01-01" => some 100 | Cell.date t => some t | _ => none)
    (fun c => match c with | Cell.num q => some q | Cell.str "5" => some 5 | _ => none)
    ⟨["date", "amount", "other"],
      [[Cell.str "2024-01-01", Cell.str "5", Cell.str "k"],
       [Cell.str "bad", Cell.num 9, Cell.str "l"],
       [Cell.date 7, Cell.str "oops", Cell.str "m"]]⟩
    "date" "amount" (by decide)).1 (by decide) (by decide) (by decide) (by decide) (by decide)
  rw [h.2.1]
  decide

/- ## C10: enforce_types does not mutate its argument -/

theorem hread_halloc_lt (h : Heap) (v : DataFrame) (j : Nat) (hj : j < List.length h) :
    hread (halloc h v).1 j = hread h j :=
  List.getD_append _ _ _ _ hj

theorem hread_halloc_self (h : Heap) (v : DataFrame) :
    hread (halloc h v).1 (halloc h v).2 = v := by
  show (h ++ [v]).getD h.length _ = v
  rw [List.getD_eq_getElem?_getD, List.getElem?_concat_length]
  rfl

theorem hread_hwrite_ne (h : Heap) (r : Nat) (v : DataFrame) (j : Nat) (hj : j ≠ r) :
    hread (hwrite h r v) j = hread h j := by
  show (h.set r v).getD j _ = h.getD j _
  rw [List.getD_eq_getElem?_getD, List.getD_eq_getElem?_getD,
    List.getElem?_set_ne (fun hh => hj hh.symm)]

theorem hread_hwrite_self (h : Heap) (r : Nat) (v : DataFrame) (hr : r < List.length h) :
    hread (hwrite h r v) r = v := by
  show (h.set r v).getD r _ = v
  rw [List.getD_eq_getElem?_getD, List.getElem?_set_self hr]
  rfl

theorem length_hwrite (h : Heap) (r : Nat) (v : DataFrame) :
    List.length (hwrite h r v) = List.length h := List.length_set h r v

theorem length_halloc (h : Heap) (v : DataFrame) :
    List.length (halloc h v).1 = List.length h + 1 := by
  show (h ++ [v]).length = _
  rw [List.length_append]
  rfl

/-- The date block preserves every object other than the one the local
variable points at, and leaves the local variable holding exactly the
value the pure date branch computes. -/
theorem dateStageHeap_spec (toDT : Cell → Option Int) (h : Heap) (r : Nat)
    (dc : Option String) (j : Nat) (hjr : j ≠ r) (hjl : j < List.length h)
    (hr : r < List.length h) :
    hread (dateStageHeap toDT h r dc).1 j = hread h j ∧
    j ≠ (dateStageHeap toDT h r dc).2 ∧
    j < List.length (dateStageHeap toDT h r dc).1 ∧
    (dateStageHeap toDT h r dc).2 < List.length (dateStageHeap toDT h r dc).1 ∧
    hread (dateStageHeap toDT h r dc).1 (dateStageHeap toDT h r dc).2 =
      (match dc with
       | some d =>
         if colOk (hread h r) (some d) then
           dropnaSubset (setColumn (hread h r) d (toDatetimeCell toDT)) d
         else hread h r
       | none => hread h r) := by
  cases dc with
  | none => exact ⟨rfl, hjr, hjl, hr, rfl⟩
  | some d =>
    cases hc : colOk (hread h r) (some d)
    · simp only [dateStageHeap, hc, Bool.false_eq_true, if_false]
      exact ⟨trivial, hjr, hjl, hr, trivial⟩
    · simp only [dateStageHeap, hc, if_true]
      have hwl : List.length (hwrite h r (setColumn (hread h r) d (toDatetimeCell toDT)))
          = List.length h := length_hwrite _ _ _
      refine ⟨?_, ?_, ?_, ?_, ?_⟩
      · rw [hread_halloc_lt _ _ j (by rw [hwl]; exact hjl),
          hread_hwrite_ne h r _ j hjr]
      · show j ≠ List.length (hwrite h r _)
        rw [hwl]
        exact Nat.ne_of_lt hjl
      · show j < List.length (halloc _ _).1
        rw [length_halloc, hwl]
        omega
      · show List.length (hwrite h r _) < List.length (halloc _ _).1
        rw [length_halloc]
        omega
      · rw [hread_halloc_self, hread_hwrite_self h r _ hr]

/-- The amount block preserves every object other than the one it
mutates, and afterwards that object holds exactly the value the pure
amount branch computes. -/
theorem amountStageHeap_spec (toN : Cell → Option ℚ) (h : Heap) (r : Nat)
    (ac : Option String) (hr : r < List.length h) :
    (∀ j : Nat, j ≠ r → hread (amountStageHeap toN h r ac) j = hread h j) ∧
    hread (amountStageHeap toN h r ac) r =
      (match ac with
       | some a =>
         if colOk (hread h r) (some a) then
           setColumn (setColumn (hread h r) a (toNumericCell toN)) a fillnaCell
         else hread h r
       | none => hread h r) := by
  cases ac with
  | none => exact ⟨fun _ _ => rfl, rfl⟩
  | some a =>
    cases hc : colOk (hread h r) (some a)
    · simp only [amountStageHeap, hc, Bool.false_eq_true, if_false]
      exact ⟨fun _ _ => trivial, trivial⟩
    · simp only [amountStageHeap, hc, if_true]
      have hwl : List.length (hwrite h r (setColumn (hread h r) a (toNumericCell toN)))
          = List.length h := length_hwrite _ _ _
      constructor
      · intro j hjr
        rw [hread_hwrite_ne _ r _ j hjr, hread_hwrite_ne h r _ j hjr]
      · rw [hread_hwrite_self _ r _ (by rw [hwl]; exact hr),
          hread_hwrite_self h r _ hr]

/-- C10.  `enforce_types` never mutates its argument: after the call the
caller's DataFrame object is unchanged, and the returned reference holds
the value of the pure `enforce_types` computed on a copy. -/
theorem enforce_types_no_mutation (toDT : Cell → Option Int) (toN : Cell → Option ℚ)
    (h : Heap) (argRef : Nat) (dc ac : Option String)
    (hlt : argRef < List.length h) :
    hread (enforceTypesHeap toDT toN h argRef dc ac).1 argRef = hread h argRef ∧
    hread (enforceTypesHeap toDT toN h argRef dc ac).1
        (enforceTypesHeap toDT toN h argRef dc ac).2 =
      enforce_types toDT toN (hread h argRef) dc ac := by
  have h1 : argRef ≠ (halloc h (hread h argRef)).2 := Nat.ne_of_lt hlt
  have h2 : argRef < List.length (halloc h (hread h argRef)).1 := by
    rw [length_halloc]; omega
  have h3 : (halloc h (hread h argRef)).2 < List.length (halloc h (hread h argRef)).1 := by
    rw [length_halloc]; exact Nat.lt_succ_self _
  obtain ⟨hA, hB, _, hD, hV⟩ := dateStageHeap_spec toDT (halloc h (hread h argRef)).1
    (halloc h (hread h argRef)).2 dc argRef h1 h2 h3
  obtain ⟨hP, hQ⟩ := amountStageHeap_spec toN
    (dateStageHeap toDT (halloc h (hread h argRef)).1 (halloc h (hread h argRef)).2 dc).1
    (dateStageHeap toDT (halloc h (hread h argRef)).1 (halloc h (hread h argRef)).2 dc).2
    ac hD
  constructor
  · show hread (amountStageHeap toN
        (dateStageHeap toDT (halloc h (hread h argRef)).1 (halloc h (hread h argRef)).2 dc).1
        (dateStageHeap toDT (halloc h (hread h argRef)).1 (halloc h (hread h argRef)).2 dc).2
        ac) argRef = _
    rw [hP argRef hB, hA, hread_halloc_lt h _ argRef hlt]
  · show hread (amountStageHeap toN
        (dateStageHeap toDT (halloc h (hread h argRef)).1 (halloc h (hread h argRef)).2 dc).1
        (dateStageHeap toDT (halloc h (hread h argRef)).1 (halloc h (hread h argRef)).2 dc).2
        ac)
      (dateStageHeap toDT (halloc h (hread h argRef)).1 (halloc h (hread h argRef)).2 dc).2 = _
    rw [hQ, hV, hread_halloc_self]
    rfl

/-- Witness for C10 on a one-object heap. -/
theorem enforce_types_no_mutation_witness :
    hread (enforceTypesHeap (fun _ => some 0) (fun _ => none)
        [⟨["date", "amount"], [[Cell.str "x", Cell.num 1]]⟩] 0
        (some "date") (some "amount")).1 0 =
      hread [⟨["date", "amount"], [[Cell.str "x", Cell.num 1]]⟩] 0 :=
  (enforce_types_no_mutation (fun _ => some 0) (fun _ => none)
    [⟨["date", "amount"], [[Cell.str "x", Cell.num 1]]⟩] 0
    (some "date") (some "amount") (by decide)).1

end Report
